import Mathlib

/-!
Shallow embedding of the UTMOSv2 adapter's prediction orchestration layer:
`utmosv2/_core/model/_common.py` (`UTMOSv2ModelMixin.predict`,
`UTMOSv2ModelMixin._prepare_data`, `UTMOSv2ModelMixin._predict_impl`) and
`utmosv2/dataset/_schema.py` (`DatasetSchema`).

Collaborators are modelled as explicit oracles: the filesystem as a record of
query functions, `get_dataset` as an optional raised exception, and the neural
forward pass as a function from (repetition index, batch index) to the batch's
squeezed cpu scores (or a raised exception).  Numpy float arrays are modelled
as lists of rationals, Python exceptions with `Except`, and a possibly-absent
attribute on the mutable configuration object as an `Option` field.
-/

namespace UTMOSv2

/-- Python exceptions raised by the code under study. -/
inductive PyError where
  | valueError (msg : String)
  | fileNotFoundError (msg : String)
  | assertionError
  | indexError
  deriving DecidableEq

/-- Audio tensors are opaque payloads at this layer; a waveform is modelled as
a list of rationals. -/
abbrev Tensor := List ℚ

/-- Embedding of `utmosv2/dataset/_schema.py`: the `DatasetSchema` dataclass. -/
structure DatasetSchema where
  file_path : Option String := none
  dataset : String := "sarulab"
  mos : Option Int := none
  audio_tensor : Option Tensor := none
  deriving DecidableEq

/-- Modelled fragment of the nested `cfg.dataset` settings object; `none`
models the `remove_silent_section` attribute being absent (`hasattr` false). -/
structure CfgDataset where
  remove_silent_section : Option Bool := none
  deriving DecidableEq

/-- Modelled fragment of the mutable configuration owned by the model;
`sr = none` models the `sr` attribute being absent, so that
`getattr(cfg, "sr", None)` returns `None`. -/
structure Config where
  sr : Option Int := none
  dataset : CfgDataset := {}
  deriving DecidableEq

/-- Filesystem oracle: `Path.exists()` for any path string, the (unordered)
file names a directory's `glob("*.wav")` yields, and the lines
`f.read().splitlines()` yields for a text file. -/
structure FS where
  pathExists : String → Bool
  dirWavs : String → List String
  fileLines : String → List String

/-- Embedding of Python `s.replace(".wav", "")` on the character list of `s`:
every non-overlapping occurrence of `".wav"` is removed, scanning left to
right. -/
def removeWav : List Char → List Char
  | c :: d :: e :: f :: rest =>
    if c = '.' ∧ d = 'w' ∧ e = 'a' ∧ f = 'v' then removeWav rest
    else c :: removeWav (d :: e :: f :: rest)
  | l => l

/-- Embedding of Python `s.replace(".wav", "")`. -/
def stripWav (s : String) : String := String.mk (removeWav s.data)

/-- Characters after the last `'/'` of a character list that contains one. -/
def lastCompChars : List Char → List Char
  | [] => []
  | c :: rest =>
    if c = '/' ∧ rest.contains '/' = false then rest
    else lastCompChars rest

/-- Embedding of `p.as_posix().split("/")[-1]`: the substring after the last
`'/'`, or the whole string when it has none. -/
def lastComp (s : String) : String :=
  if s.data.contains '/' then String.mk (lastCompChars s.data) else s

/-- Lexicographic comparison of character lists by code point, as Python
compares the glob's path strings. -/
def charListLt : List Char → List Char → Bool
  | [], [] => false
  | [], _ :: _ => true
  | _ :: _, [] => false
  | c :: cs, d :: ds =>
    if c.toNat < d.toNat then true
    else if d.toNat < c.toNat then false
    else charListLt cs ds

/-- Lexicographic order on path strings. -/
def strLt (x y : String) : Bool := charListLt x.data y.data

/-- Insertion step used to embed Python `sorted` on path strings. -/
def insertSorted (x : String) : List String → List String
  | [] => [x]
  | y :: ys => if strLt y x then y :: insertSorted x ys else x :: y :: ys

/-- Embedding of Python `sorted` (stable, ascending) for the glob result. -/
def sortStrings : List String → List String
  | [] => []
  | x :: xs => insertSorted x (sortStrings xs)

/-- Records produced in directory mode, lines 203-209 of `_common.py`: one
record per `*.wav` glob entry, lexicographically sorted
(`sorted(input_dir.glob("*.wav"))`). -/
def dirRecords (fs : FS) (dir tag : String) : List DatasetSchema :=
  (sortStrings ((fs.dirWavs dir).map (fun nm => dir ++ "/" ++ nm))).map
    (fun p => { file_path := some p, dataset := tag })

/-- Validation-list filter, lines 213-220 of `_common.py`: allowlist entries
and file names both have every `".wav"` occurrence removed before exact
membership in the allowlist set. -/
def applyValFilter (vl : List String) (res : List DatasetSchema) : List DatasetSchema :=
  res.filter (fun d => (vl.map stripWav).contains (stripWav (lastComp (d.file_path.getD ""))))

/-- Optional validation-list filter (`if val_list is not None`). -/
def applyFilterOpt (val_list : Option (List String)) (res : List DatasetSchema) :
    List DatasetSchema :=
  match val_list with
  | some vl => applyValFilter vl res
  | none => res

/-- Python string form of an `Option` path, as interpolated in the final
`ValueError` message of `_prepare_data`. -/
def optionPathStr : Option String → String
  | none => "None"
  | some p => p

/-- Outcome of `_prepare_data`: the returned record list (or raised
exception), together with the final contents of the caller's `val_list` list
object, which `list.extend` mutates in place. -/
structure PrepOut where
  res : Except PyError (List DatasetSchema)
  callerValList : Option (List String)

/-- Shared final check of `_prepare_data`, lines 240-243: raise `ValueError`
if the record list is empty. -/
def finishTail (caller : Option (List String)) (val_list_path : Option String)
    (res : List DatasetSchema) : PrepOut :=
  if res.isEmpty then
    ⟨.error (.valueError
      ("None of the data were found in the validation list: " ++ optionPathStr val_list_path)),
     caller⟩
  else ⟨.ok res, caller⟩

/-- Branching body of `_prepare_data`, lines 183-238, after the `val_list_path`
handling: `val_list` is the (possibly extended) local variable, `caller` the
contents of the caller's `val_list` object. -/
def prepareDataCore (fs : FS) (input_path input_dir : Option String)
    (input_tensor : Option Tensor) (input_tensors : Option (List Tensor))
    (val_list : Option (List String)) (caller : Option (List String))
    (val_list_path : Option String) (predict_dataset : String) : PrepOut :=
  match input_path, input_dir with
  | some ip, od =>
    if fs.pathExists ip then
      match od with
      | some idir =>
        if fs.pathExists idir then
          finishTail caller val_list_path
            (applyFilterOpt val_list [{ file_path := some ip, dataset := predict_dataset }])
        else ⟨.error (.fileNotFoundError ("Directory not found: " ++ idir)), caller⟩
      | none =>
        finishTail caller val_list_path
          (applyFilterOpt val_list [{ file_path := some ip, dataset := predict_dataset }])
    else ⟨.error (.fileNotFoundError ("File not found: " ++ ip)), caller⟩
  | none, some idir =>
    if fs.pathExists idir then
      let res := dirRecords fs idir predict_dataset
      if res.isEmpty then ⟨.error (.valueError ("No wav files found in " ++ idir)), caller⟩
      else finishTail caller val_list_path (applyFilterOpt val_list res)
    else ⟨.error (.fileNotFoundError ("Directory not found: " ++ idir)), caller⟩
  | none, none =>
    match input_tensor with
    | some t =>
      finishTail caller val_list_path
        [{ dataset := predict_dataset, audio_tensor := some t }]
    | none =>
      match input_tensors with
      | some ts =>
        finishTail caller val_list_path
          (ts.map (fun t => { dataset := predict_dataset, audio_tensor := some t }))
      | none => ⟨.error (.valueError "No valid input provided"), caller⟩

/-- Embedding of `UTMOSv2ModelMixin._prepare_data` (lines 155-245): the
`val_list_path` handling (warn, default, existence check, in-place `extend`)
followed by `prepareDataCore`. -/
def prepareData (fs : FS) (input_path input_dir : Option String)
    (input_tensor : Option Tensor) (input_tensors : Option (List Tensor))
    (val_list0 : Option (List String)) (val_list_path : Option String)
    (predict_dataset : String) : PrepOut :=
  match val_list_path with
  | some p =>
    if fs.pathExists p then
      match val_list0 with
      | none =>
        prepareDataCore fs input_path input_dir input_tensor input_tensors
          (some (fs.fileLines p)) none val_list_path predict_dataset
      | some L =>
        prepareDataCore fs input_path input_dir input_tensor input_tensors
          (some (L ++ fs.fileLines p)) (some (L ++ fs.fileLines p)) val_list_path predict_dataset
    else ⟨.error (.fileNotFoundError ("File not found: " ++ p)), val_list0⟩
  | none =>
    prepareDataCore fs input_path input_dir input_tensor input_tensors
      val_list0 val_list0 val_list_path predict_dataset

/-- Local `val_list` variable of `_prepare_data` after the lines 168-181
step, when the allowlist file (if any) exists: the inline list, the file's
lines, or their union in that order. -/
def effectiveValList (fs : FS) (val_list0 : Option (List String))
    (vlp : Option String) : Option (List String) :=
  match vlp with
  | none => val_list0
  | some q =>
    match val_list0 with
    | none => some (fs.fileLines q)
    | some L => some (L ++ fs.fileLines q)

/-- Accumulator of `_predict_impl`: `res` starts as the Python float `0.0` and
becomes a numpy array after the first `+=`. -/
inductive NpAccum where
  | float0
  | arr (vs : List ℚ)
  deriving DecidableEq

/-- numpy `res + v`: broadcasting turns `0.0 + v` into the array `v`; a later
addition is elementwise and requires matching lengths. -/
def npAdd : NpAccum → List ℚ → Except PyError NpAccum
  | .float0, v => .ok (.arr v)
  | .arr a, v =>
    if a.length = v.length then .ok (.arr (List.zipWith (fun x y => x + y) a v))
    else .error (.valueError "operands could not be broadcast together")

/-- Batch loop of one repetition: the outputs of `f` for `k` consecutive batch
indices starting at `b`, in order, propagating the first raised exception. -/
def collectFrom (f : Nat → Except PyError (List ℚ)) : Nat → Nat → Except PyError (List (List ℚ))
  | _, 0 => .ok []
  | b, k + 1 =>
    match f b with
    | .error e => .error e
    | .ok out =>
      match collectFrom f (b + 1) k with
      | .error e => .error e
      | .ok rest => .ok (out :: rest)

/-- Repetition loop of `_predict_impl`, lines 259-278, over the listed
repetition indices: per repetition, collect the batch outputs, concatenate
them, divide elementwise by `n` and accumulate. -/
def predictFold (forward : Nat → Nat → Except PyError (List ℚ)) (nb n : Nat) :
    List Nat → NpAccum → Except PyError NpAccum
  | [], acc => .ok acc
  | i :: rest, acc =>
    match collectFrom (forward i) 0 nb with
    | .error e => .error e
    | .ok preds =>
      if preds.isEmpty then .error (.valueError "need at least one array to concatenate")
      else
        match npAdd acc (preds.flatten.map (fun x => x / (n : ℚ))) with
        | .error e => .error e
        | .ok acc2 => predictFold forward nb n rest acc2

/-- Embedding of `UTMOSv2ModelMixin._predict_impl` (lines 247-280) at value
level: `nb` batches per pass, `n` repetitions; ends with
`assert isinstance(res, np.ndarray)`. -/
def predictImpl (forward : Nat → Nat → Except PyError (List ℚ)) (nb n : Nat) :
    Except PyError (List ℚ) :=
  match predictFold forward nb n (List.range n) NpAccum.float0 with
  | .error e => .error e
  | .ok NpAccum.float0 => .error .assertionError
  | .ok (NpAccum.arr vs) => .ok vs

/-- Batch outputs of one repetition under an exception-free forward pass:
`f b, f (b+1), ...` for `k` consecutive batch indices. -/
def collectPure (g : Nat → List ℚ) : Nat → Nat → List (List ℚ)
  | _, 0 => []
  | b, k + 1 => g b :: collectPure g (b + 1) k

/-- Concatenated per-repetition output array (`np.concatenate(pred)`) of
repetition `i` under an exception-free forward pass with `nb` batches. -/
def repArray (f : Nat → Nat → List ℚ) (nb i : Nat) : List ℚ :=
  (collectPure (f i) 0 nb).flatten

/-- Number of batches `len(dataloader)` yields for `numItems` records:
ceiling division by `batch_size` (`drop_last` defaults to `False`). -/
def numBatches (numItems batch_size : Nat) : Nat := (numItems + batch_size - 1) / batch_size

/-- Per-call collaborators: whether `get_dataset` raises, and the forward
pass's per-batch output. -/
structure Collab where
  getDatasetError : Option PyError := none
  forward : Nat → Nat → Except PyError (List ℚ)

/-- Keyword arguments of `UTMOSv2ModelMixin.predict` that are observable in
this embedding, with the source's default values. -/
structure PredictArgs where
  input_path : Option String := none
  input_dir : Option String := none
  input_tensor : Option Tensor := none
  input_tensors : Option (List Tensor) := none
  val_list : Option (List String) := none
  val_list_path : Option String := none
  predict_dataset : String := "sarulab"
  batch_size : Nat := 16
  num_repetitions : Nat := 1
  remove_silent_section : Bool := true
  sample_rate : Option Int := none

/-- Embedding of `sum(x is not None for x in [input_path, input_dir,
input_tensor, input_tensors])`. -/
def modeCount (a : PredictArgs) : Nat :=
  (if a.input_path.isSome then 1 else 0) + (if a.input_dir.isSome then 1 else 0) +
    (if a.input_tensor.isSome then 1 else 0) + (if a.input_tensors.isSome then 1 else 0)

/-- Embedding of `input_tensor is not None or input_tensors is not None`. -/
def tensorMode (a : PredictArgs) : Bool :=
  a.input_tensor.isSome || a.input_tensors.isSome

/-- Return value of `predict`, lines 143-153: a single float, a list of
floats, or a list of `{file_path, predicted_mos}` records. -/
inductive PredictResult where
  | score (v : ℚ)
  | scores (vs : List ℚ)
  | records (rs : List (String × ℚ))
  deriving DecidableEq

/-- File-path label of a record in directory-mode output:
`d.file_path.as_posix() if d.file_path else "tensor_input"`. -/
def pathString (d : DatasetSchema) : String :=
  match d.file_path with
  | some p => p
  | none => "tensor_input"

/-- Result shaping, lines 143-153 of `_common.py`; `pred[0]` on an empty numpy
array raises `IndexError`. -/
def shapeResult (a : PredictArgs) (data : List DatasetSchema) (pred : List ℚ) :
    Except PyError PredictResult :=
  if a.input_path.isSome then
    match pred with
    | [] => .error .indexError
    | v :: _ => .ok (.score v)
  else if a.input_tensor.isSome then
    match pred with
    | [] => .error .indexError
    | v :: _ => .ok (.score v)
  else if a.input_tensors.isSome then .ok (.scores pred)
  else .ok (.records ((data.zip pred).map (fun dp => (pathString dp.1, dp.2))))

/-- Observable outcome of one `predict` call: the returned value or propagated
exception, the final state of the configuration object, the configuration
`get_dataset` saw (when construction was reached at all), and the final
contents of the caller's `val_list` list object. -/
structure PredictOutcome where
  result : Except PyError PredictResult
  cfgFinal : Config
  cfgAtConstruction : Option Config
  callerValList : Option (List String)

/-- Tail of `predict` after `_prepare_data` succeeded, lines 119-153:
silence-removal override, dataset construction, restore, inference, sample-rate
restore and result shaping.  `cfg1` is the configuration after the sample-rate
override, `original_sr` the saved `getattr(self._cfg, "sr", None)`. -/
def predictAfterPrep (co : Collab) (cfg1 : Config) (original_sr : Option Int)
    (a : PredictArgs) (data : List DatasetSchema) (caller : Option (List String)) :
    PredictOutcome :=
  let initial_state : Bool := cfg1.dataset.remove_silent_section.getD false
  let cfg2 : Config :=
    if a.remove_silent_section then
      { cfg1 with dataset := { remove_silent_section := some true } }
    else cfg1
  match co.getDatasetError with
  | some e => ⟨.error e, cfg2, some cfg2, caller⟩
  | none =>
    let cfg3 : Config :=
      if a.remove_silent_section ∧ initial_state = false then
        { cfg2 with dataset := { remove_silent_section := some false } }
      else cfg2
    match predictImpl co.forward (numBatches data.length a.batch_size) a.num_repetitions with
    | .error e => ⟨.error e, cfg3, some cfg2, caller⟩
    | .ok pred =>
      let cfg4 : Config :=
        match original_sr with
        | some s => { cfg3 with sr := some s }
        | none => cfg3
      match shapeResult a data pred with
      | .error e => ⟨.error e, cfg4, some cfg2, caller⟩
      | .ok r => ⟨.ok r, cfg4, some cfg2, caller⟩

/-- Embedding of `UTMOSv2ModelMixin.predict` (lines 39-153), instrumented to
report the final configuration, the configuration `get_dataset` saw, and the
final contents of the caller's `val_list` object. -/
def predict (fs : FS) (co : Collab) (cfg0 : Config) (a : PredictArgs) : PredictOutcome :=
  if modeCount a ≠ 1 then
    ⟨.error (.valueError
       "Exactly one of `input_path`, `input_dir`, `input_tensor`, or `input_tensors` must be provided."),
     cfg0, none, a.val_list⟩
  else if tensorMode a ∧ a.sample_rate = none then
    ⟨.error (.valueError "sample_rate must be provided when using input_tensor or input_tensors"),
     cfg0, none, a.val_list⟩
  else
    let original_sr : Option Int := if tensorMode a then cfg0.sr else none
    let cfg1 : Config := if tensorMode a then { cfg0 with sr := a.sample_rate } else cfg0
    let prep := prepareData fs a.input_path a.input_dir a.input_tensor a.input_tensors
      a.val_list a.val_list_path a.predict_dataset
    match prep.res with
    | .error e => ⟨.error e, cfg1, none, prep.callerValList⟩
    | .ok data => predictAfterPrep co cfg1 original_sr a data prep.callerValList

/-- Modelled from the claim's words, for comparison with the source's
`stripWav`: removal of one trailing `".wav"` suffix only. -/
def stripWavSuffix (s : String) : String :=
  if s.data.reverse.take 4 = ['v', 'a', 'w', '.'] then
    String.mk (s.data.take (s.data.length - 4))
  else s

/-! Concrete fixtures used to evaluate the embedding at specific inputs. -/

/-- Filesystem on which no path exists. -/
def fsAllMissing : FS := ⟨fun _ => false, fun _ => [], fun _ => []⟩

/-- Filesystem on which every path exists, every directory is empty and every
text file is empty. -/
def fsAllEmpty : FS := ⟨fun _ => true, fun _ => [], fun _ => []⟩

/-- Filesystem whose directories hold `b.wav`, `a.wav`, `c.wav` (unsorted). -/
def fsDirABC : FS := ⟨fun _ => true, fun _ => ["b.wav", "a.wav", "c.wav"], fun _ => []⟩

/-- Filesystem whose directories hold the single file `a.wavb.wav`. -/
def fsDirOdd : FS := ⟨fun _ => true, fun _ => ["a.wavb.wav"], fun _ => []⟩

/-- Filesystem whose directories hold `b.wav`, `a.wav`, `c.wav` and whose
text files hold the lines `a` and `c`. -/
def fsDirABCLines : FS :=
  ⟨fun _ => true, fun _ => ["b.wav", "a.wav", "c.wav"], fun _ => ["a", "c"]⟩

/-- Filesystem on which every path exists, every directory is empty, and every
text file holds the single line `a`. -/
def fsWithLines : FS := ⟨fun _ => true, fun _ => [], fun _ => ["a"]⟩

/-- Model collaborator whose forward pass scores every batch as `[3]`. -/
def coOk : Collab := ⟨none, fun _ _ => .ok [3]⟩

/-- Model collaborator whose forward pass scores every batch as `[3, 5]`. -/
def coPair : Collab := ⟨none, fun _ _ => .ok [3, 5]⟩

/-- Model collaborator whose forward pass scores every batch as `[3, 5, 7]`. -/
def coTriple : Collab := ⟨none, fun _ _ => .ok [3, 5, 7]⟩

/-- Model collaborator whose `get_dataset` raises. -/
def coBoom : Collab := ⟨some (.valueError "cuda error"), fun _ _ => .ok [3]⟩

/-- Deterministic per-repetition forward outputs: `[3]` on the first pass,
`[5]` on every later pass. -/
def witF : Nat → Nat → List ℚ := fun i _ => if i = 0 then [3] else [5]

end UTMOSv2

namespace UTMOSv2

/-- Claim C1 (code bug): the sample-rate and silence-removal overrides are not
restored on exception paths.  First scenario: a tensor-mode call whose
validation-list file is missing propagates `FileNotFoundError` after the
sample-rate override was installed, leaving `cfg.sr = 16000` instead of the
pre-call `44100`.  Second scenario: when `get_dataset` raises, the forced
`remove_silent_section = True` is left in place instead of the pre-call
`False`. -/
theorem c1_override_leaks_on_error_paths :
    (predict fsAllMissing coOk { sr := some 44100 }
        { input_tensor := some [1], sample_rate := some 16000,
          val_list_path := some "missing.txt" }).result
      = .error (.fileNotFoundError "File not found: missing.txt") ∧
    (predict fsAllMissing coOk { sr := some 44100 }
        { input_tensor := some [1], sample_rate := some 16000,
          val_list_path := some "missing.txt" }).cfgFinal.sr = some 16000 ∧
    (predict fsAllEmpty coBoom { dataset := { remove_silent_section := some false } }
        { input_path := some "a.wav" }).result = .error (.valueError "cuda error") ∧
    (predict fsAllEmpty coBoom { dataset := { remove_silent_section := some false } }
        { input_path := some "a.wav" }).cfgFinal.dataset.remove_silent_section
      = some true :=
  ⟨rfl, rfl, rfl, rfl⟩

/-- Claim C2, counterexample: when the `remove_silent_section` attribute was
unset before the call, the restore step after dataset construction is not a
no-op — the code writes `False` (because `hasattr(...) and ...` evaluates to
`False` for an unset attribute), so the attribute ends the call set to
`False`. -/
theorem c2_counterexample_unset_attribute_written :
    ({} : Config).dataset.remove_silent_section = none ∧
    (predict fsAllEmpty coOk {} { input_path := some "a.wav" }).result = .ok (.score 3) ∧
    (predict fsAllEmpty coOk {} { input_path := some "a.wav" }).cfgFinal.dataset.remove_silent_section
      = some false := by
  refine ⟨rfl, ?_, rfl⟩
  have h : (predict fsAllEmpty coOk {} { input_path := some "a.wav" }).result
      = .ok (.score (3 / ((1 : Nat) : ℚ))) := rfl
  rw [h]
  norm_num

/-- Claim C3: supplying zero or at least two of the four primary input
selectors makes `predict` raise `ValueError` before any configuration
mutation, dataset construction, or inference work. -/
theorem c3_arity_validation (fs : FS) (co : Collab) (cfg0 : Config) (a : PredictArgs)
    (h : modeCount a ≠ 1) :
    (predict fs co cfg0 a).result = .error (.valueError
      "Exactly one of `input_path`, `input_dir`, `input_tensor`, or `input_tensors` must be provided.") ∧
    (predict fs co cfg0 a).cfgFinal = cfg0 ∧
    (predict fs co cfg0 a).cfgAtConstruction = none ∧
    (predict fs co cfg0 a).callerValList = a.val_list := by
  unfold predict
  rw [if_pos h]
  exact ⟨rfl, rfl, rfl, rfl⟩

/-- Witness for C3 at the all-defaults call (zero selectors supplied). -/
theorem c3_arity_validation_witness :
    (predict fsAllMissing coOk {} {}).result = .error (.valueError
      "Exactly one of `input_path`, `input_dir`, `input_tensor`, or `input_tensors` must be provided.") ∧
    (predict fsAllMissing coOk {} {}).cfgFinal = {} ∧
    (predict fsAllMissing coOk {} {}).cfgAtConstruction = none ∧
    (predict fsAllMissing coOk {} {}).callerValList = none :=
  c3_arity_validation fsAllMissing coOk {} {} (by decide)

/-- Claim C9, counterexample: with both `val_list` and an existing but empty
`val_list_path` supplied, `predict` completes and the caller's list is
unchanged — it is not longer than before the call. -/
theorem c9_counterexample_empty_file_no_growth :
    ({ input_path := some "a.wav", val_list := some ["a"],
       val_list_path := some "empty.txt" } : PredictArgs).val_list = some ["a"] ∧
    (predict fsAllEmpty coOk {}
        { input_path := some "a.wav", val_list := some ["a"],
          val_list_path := some "empty.txt" }).result = .ok (.score 3) ∧
    (predict fsAllEmpty coOk {}
        { input_path := some "a.wav", val_list := some ["a"],
          val_list_path := some "empty.txt" }).callerValList = some ["a"] := by
  refine ⟨rfl, ?_, rfl⟩
  have h : (predict fsAllEmpty coOk {}
      { input_path := some "a.wav", val_list := some ["a"],
        val_list_path := some "empty.txt" }).result
      = .ok (.score (3 / ((1 : Nat) : ℚ))) := rfl
  rw [h]
  norm_num

/-- Claim C10: with `num_repetitions = 0` the repetition loop body never runs,
the accumulator is still the float `0.0` after the loop, and the call raises
`AssertionError` from `assert isinstance(res, np.ndarray)` instead of
returning a score. -/
theorem c10_zero_repetitions_assertion (fs : FS) (co : Collab) (cfg0 : Config)
    (a : PredictArgs) (data : List DatasetSchema) (h0 : a.num_repetitions = 0) :
    (∀ nb, predictFold co.forward nb 0 (List.range 0) NpAccum.float0 = .ok NpAccum.float0) ∧
    (∀ nb, predictImpl co.forward nb 0 = .error .assertionError) ∧
    (modeCount a = 1 →
      ¬(tensorMode a = true ∧ a.sample_rate = none) →
      (prepareData fs a.input_path a.input_dir a.input_tensor a.input_tensors
        a.val_list a.val_list_path a.predict_dataset).res = .ok data →
      co.getDatasetError = none →
      (predict fs co cfg0 a).result = .error .assertionError) := by
  refine ⟨fun nb => rfl, fun nb => rfl, ?_⟩
  intro hm hsr hprep hds
  unfold predict
  rw [if_neg (not_ne_iff.mpr hm), if_neg hsr]
  dsimp only
  rw [hprep]
  unfold predictAfterPrep
  rw [hds]
  dsimp only
  rw [h0]
  rfl

/-- Witness for C10: a concrete single-file call with `num_repetitions = 0`
raises `AssertionError`. -/
theorem c10_zero_repetitions_assertion_witness :
    (predict fsAllEmpty coOk {}
        { input_path := some "a.wav", num_repetitions := 0 }).result
      = .error .assertionError :=
  (c10_zero_repetitions_assertion fsAllEmpty coOk {}
      { input_path := some "a.wav", num_repetitions := 0 }
      [{ file_path := some "a.wav", dataset := "sarulab" }] rfl).2.2
    (by decide) (by decide) rfl rfl

end UTMOSv2

namespace UTMOSv2

/-- Unfolding of `predict` past the two leading validations. -/
theorem predict_unfold_checked (fs : FS) (co : Collab) (cfg0 : Config) (a : PredictArgs)
    (hm : modeCount a = 1) (hsr : ¬(tensorMode a = true ∧ a.sample_rate = none)) :
    predict fs co cfg0 a =
      (match (prepareData fs a.input_path a.input_dir a.input_tensor a.input_tensors
          a.val_list a.val_list_path a.predict_dataset).res with
       | .error e =>
         ⟨.error e, (if tensorMode a then { cfg0 with sr := a.sample_rate } else cfg0), none,
          (prepareData fs a.input_path a.input_dir a.input_tensor a.input_tensors
            a.val_list a.val_list_path a.predict_dataset).callerValList⟩
       | .ok data =>
         predictAfterPrep co (if tensorMode a then { cfg0 with sr := a.sample_rate } else cfg0)
           (if tensorMode a then cfg0.sr else none) a data
           (prepareData fs a.input_path a.input_dir a.input_tensor a.input_tensors
             a.val_list a.val_list_path a.predict_dataset).callerValList) := by
  unfold predict
  rw [if_neg (not_ne_iff.mpr hm), if_neg hsr]

/-- Every branch of the post-preparation tail records the same configuration
as seen by `get_dataset`: the one after the sample-rate override, with the
silence flag forced to true when silence removal was requested. -/
theorem predictAfterPrep_cfgAtConstruction (co : Collab) (cfg1 : Config)
    (osr : Option Int) (a : PredictArgs) (data : List DatasetSchema)
    (caller : Option (List String)) :
    (predictAfterPrep co cfg1 osr a data caller).cfgAtConstruction
      = some (if a.remove_silent_section
          then { cfg1 with dataset := { remove_silent_section := some true } }
          else cfg1) := by
  unfold predictAfterPrep
  cases hd : co.getDatasetError with
  | some e => rfl
  | none =>
    cases hi : predictImpl co.forward (numBatches data.length a.batch_size)
        a.num_repetitions with
    | error e => rfl
    | ok pred =>
      dsimp only
      cases osr with
      | some s =>
        dsimp only
        cases hs : shapeResult a data pred with
        | error e => rfl
        | ok r => rfl
      | none =>
        dsimp only
        cases hs : shapeResult a data pred with
        | error e => rfl
        | ok r => rfl

/-- When dataset construction does not raise and silence removal was
requested, the silence flag has been restored (lines 127-128) by the time the
call exits, on success and on inference or shaping errors alike: it ends as
`some` of the saved `initial_state`. -/
theorem predictAfterPrep_cfgFinal_flag (co : Collab) (cfg1 : Config)
    (osr : Option Int) (a : PredictArgs) (data : List DatasetSchema)
    (caller : Option (List String)) (hds : co.getDatasetError = none)
    (hr : a.remove_silent_section = true) :
    (predictAfterPrep co cfg1 osr a data caller).cfgFinal.dataset.remove_silent_section
      = some (cfg1.dataset.remove_silent_section.getD false) := by
  unfold predictAfterPrep
  rw [hds]
  cases hi : predictImpl co.forward (numBatches data.length a.batch_size)
      a.num_repetitions with
  | error e =>
    by_cases hb : cfg1.dataset.remove_silent_section.getD false = true <;> simp [hr, hb]
  | ok pred =>
    dsimp only
    cases osr with
    | some s =>
      dsimp only
      cases hs : shapeResult a data pred with
      | error e =>
        by_cases hb : cfg1.dataset.remove_silent_section.getD false = true <;>
          simp [hr, hb]
      | ok r =>
        by_cases hb : cfg1.dataset.remove_silent_section.getD false = true <;>
          simp [hr, hb]
    | none =>
      dsimp only
      cases hs : shapeResult a data pred with
      | error e =>
        by_cases hb : cfg1.dataset.remove_silent_section.getD false = true <;>
          simp [hr, hb]
      | ok r =>
        by_cases hb : cfg1.dataset.remove_silent_section.getD false = true <;>
          simp [hr, hb]

/-- Claim C4: a tensor-mode call without a sample rate raises `ValueError`
before any configuration mutation or dataset work; with a sample rate
supplied, the configuration's `sr` is overwritten with the supplied value and
that is the value dataset construction observes. -/
theorem c4_tensor_sample_rate (fs : FS) (co : Collab) (cfg0 : Config) (a : PredictArgs)
    (hm : modeCount a = 1) (ht : tensorMode a = true) :
    (a.sample_rate = none →
      (predict fs co cfg0 a).result = .error (.valueError
        "sample_rate must be provided when using input_tensor or input_tensors") ∧
      (predict fs co cfg0 a).cfgFinal = cfg0 ∧
      (predict fs co cfg0 a).cfgAtConstruction = none) ∧
    (∀ v, a.sample_rate = some v →
      ∀ c, (predict fs co cfg0 a).cfgAtConstruction = some c → c.sr = some v) := by
  constructor
  · intro hs
    unfold predict
    rw [if_neg (not_ne_iff.mpr hm), if_pos ⟨ht, hs⟩]
    exact ⟨rfl, rfl, rfl⟩
  · intro v hv c hc
    rw [predict_unfold_checked fs co cfg0 a hm (by simp [hv])] at hc
    cases hp : (prepareData fs a.input_path a.input_dir a.input_tensor a.input_tensors
        a.val_list a.val_list_path a.predict_dataset).res with
    | error e =>
      rw [hp] at hc
      exact absurd hc (by simp)
    | ok data =>
      rw [hp] at hc
      rw [predictAfterPrep_cfgAtConstruction] at hc
      have hx := Option.some.inj hc
      subst hx
      by_cases hr : a.remove_silent_section = true <;> simp [hr, ht, hv]

/-- Witness for C4: a tensor call without `sample_rate` raises, and a tensor
call with `sample_rate = 16000` constructs the dataset under `sr = 16000`. -/
theorem c4_tensor_sample_rate_witness :
    (predict fsAllEmpty coOk {} { input_tensor := some [1] }).result
      = .error (.valueError
        "sample_rate must be provided when using input_tensor or input_tensors") ∧
    ({ sr := some 16000, dataset := { remove_silent_section := some true } } : Config).sr
      = some 16000 :=
  ⟨((c4_tensor_sample_rate fsAllEmpty coOk {} { input_tensor := some [1] }
      (by decide) (by decide)).1 rfl).1,
   (c4_tensor_sample_rate fsAllEmpty coOk {}
      { input_tensor := some [1], sample_rate := some 16000 } (by decide) (by decide)).2
     16000 rfl { sr := some 16000, dataset := { remove_silent_section := some true } } rfl⟩

end UTMOSv2

namespace UTMOSv2

/-- Claim C2 (amended): with silence removal requested, dataset construction
sees the flag forced to `true`; after construction (and before inference, so
on inference and shaping errors alike) the flag equals `some` of the saved
`initial_state` — the prior value when the attribute was set, and `false` (a
real write, not a no-op) when the attribute was previously unset. -/
theorem c2_silence_flag_save_force_restore (fs : FS) (co : Collab) (cfg0 : Config)
    (a : PredictArgs) (data : List DatasetSchema)
    (hm : modeCount a = 1) (hsr : ¬(tensorMode a = true ∧ a.sample_rate = none))
    (hprep : (prepareData fs a.input_path a.input_dir a.input_tensor a.input_tensors
      a.val_list a.val_list_path a.predict_dataset).res = .ok data)
    (hr : a.remove_silent_section = true) :
    (∀ c, (predict fs co cfg0 a).cfgAtConstruction = some c →
      c.dataset.remove_silent_section = some true) ∧
    (co.getDatasetError = none →
      (predict fs co cfg0 a).cfgFinal.dataset.remove_silent_section
        = some (cfg0.dataset.remove_silent_section.getD false)) := by
  rw [predict_unfold_checked fs co cfg0 a hm hsr, hprep]
  constructor
  · intro c hc
    rw [predictAfterPrep_cfgAtConstruction] at hc
    have hx := Option.some.inj hc
    subst hx
    simp [hr]
  · intro hds
    rw [predictAfterPrep_cfgFinal_flag _ _ _ _ _ _ hds hr]
    by_cases htm : tensorMode a = true <;> simp [htm]

/-- Witness for C2's amended statement: with a pre-call flag value of `False`,
construction sees `True` and the flag ends the call restored to `False`. -/
theorem c2_silence_flag_save_force_restore_witness :
    (predict fsAllEmpty coOk { dataset := { remove_silent_section := some false } }
      { input_path := some "a.wav" }).cfgAtConstruction
      = some { sr := none, dataset := { remove_silent_section := some true } } ∧
    ({ sr := none, dataset := { remove_silent_section := some true } } : Config).dataset.remove_silent_section
      = some true ∧
    (predict fsAllEmpty coOk { dataset := { remove_silent_section := some false } }
      { input_path := some "a.wav" }).cfgFinal.dataset.remove_silent_section
      = some false :=
  ⟨rfl,
   (c2_silence_flag_save_force_restore fsAllEmpty coOk
      { dataset := { remove_silent_section := some false } } { input_path := some "a.wav" }
      [{ file_path := some "a.wav", dataset := "sarulab" }] (by decide) (by decide) rfl
      rfl).1
     { sr := none, dataset := { remove_silent_section := some true } } rfl,
   (c2_silence_flag_save_force_restore fsAllEmpty coOk
      { dataset := { remove_silent_section := some false } } { input_path := some "a.wav" }
      [{ file_path := some "a.wav", dataset := "sarulab" }] (by decide) (by decide) rfl
      rfl).2 rfl⟩

/-- Helper: `finishTail` never changes the caller's list. -/
theorem finishTail_caller (caller : Option (List String)) (vlp : Option String)
    (res : List DatasetSchema) : (finishTail caller vlp res).callerValList = caller := by
  unfold finishTail
  split <;> rfl

/-- Helper: `prepareDataCore` returns the caller's list unchanged on every
path. -/
theorem prepareDataCore_caller (fs : FS) (ip idir : Option String) (it : Option Tensor)
    (its : Option (List Tensor)) (vl caller : Option (List String)) (vlp : Option String)
    (tag : String) :
    (prepareDataCore fs ip idir it its vl caller vlp tag).callerValList = caller := by
  unfold prepareDataCore
  rcases ip with _ | p
  · rcases idir with _ | d
    · rcases it with _ | t
      · rcases its with _ | ts
        · rfl
        · exact finishTail_caller _ _ _
      · exact finishTail_caller _ _ _
    · dsimp only
      split
      · split
        · rfl
        · exact finishTail_caller _ _ _
      · rfl
  · dsimp only
    split
    · rcases idir with _ | d
      · exact finishTail_caller _ _ _
      · dsimp only
        split
        · exact finishTail_caller _ _ _
        · rfl
    · rfl

/-- Helper: the post-preparation tail of `predict` returns the caller's list
unchanged on every path. -/
theorem predictAfterPrep_caller (co : Collab) (cfg1 : Config) (osr : Option Int)
    (a : PredictArgs) (data : List DatasetSchema) (caller : Option (List String)) :
    (predictAfterPrep co cfg1 osr a data caller).callerValList = caller := by
  unfold predictAfterPrep
  cases hd : co.getDatasetError with
  | some e => rfl
  | none =>
    cases hi : predictImpl co.forward (numBatches data.length a.batch_size)
        a.num_repetitions with
    | error e => rfl
    | ok pred =>
      dsimp only
      cases osr with
      | some s =>
        dsimp only
        cases hs : shapeResult a data pred <;> rfl
      | none =>
        dsimp only
        cases hs : shapeResult a data pred <;> rfl

/-- Claim C9 (amended): with both `val_list` and an existing `val_list_path`
supplied and the call reaching `_prepare_data`, the caller's list object ends
the call equal to its original contents followed by the file's lines (the
in-place `extend`); when `val_list_path` is `None` the caller's list is left
unmodified on every path. -/
theorem c9_val_list_extend (fs : FS) (co : Collab) (cfg0 : Config) (a : PredictArgs) :
    (∀ L q, a.val_list = some L → a.val_list_path = some q → fs.pathExists q = true →
      modeCount a = 1 → ¬(tensorMode a = true ∧ a.sample_rate = none) →
      (predict fs co cfg0 a).callerValList = some (L ++ fs.fileLines q)) ∧
    (a.val_list_path = none → (predict fs co cfg0 a).callerValList = a.val_list) := by
  constructor
  · intro L q hL hq hfs hm hsr
    have hcaller : (prepareData fs a.input_path a.input_dir a.input_tensor a.input_tensors
        a.val_list a.val_list_path a.predict_dataset).callerValList
        = some (L ++ fs.fileLines q) := by
      unfold prepareData
      rw [hq]
      dsimp only
      rw [hfs]
      rw [hL]
      dsimp only
      exact prepareDataCore_caller _ _ _ _ _ _ _ _ _
    rw [predict_unfold_checked fs co cfg0 a hm hsr]
    cases hp : (prepareData fs a.input_path a.input_dir a.input_tensor a.input_tensors
        a.val_list a.val_list_path a.predict_dataset).res with
    | error e =>
      dsimp only
      exact hcaller
    | ok data =>
      dsimp only
      rw [predictAfterPrep_caller]
      exact hcaller
  · intro hn
    have hcaller : (prepareData fs a.input_path a.input_dir a.input_tensor a.input_tensors
        a.val_list a.val_list_path a.predict_dataset).callerValList = a.val_list := by
      unfold prepareData
      rw [hn]
      dsimp only
      exact prepareDataCore_caller _ _ _ _ _ _ _ _ _
    unfold predict
    by_cases hm : modeCount a ≠ 1
    · rw [if_pos hm]
    · rw [if_neg hm]
      by_cases hsr : tensorMode a = true ∧ a.sample_rate = none
      · rw [if_pos hsr]
      · rw [if_neg hsr]
        dsimp only
        cases hp : (prepareData fs a.input_path a.input_dir a.input_tensor a.input_tensors
            a.val_list a.val_list_path a.predict_dataset).res with
        | error e =>
          dsimp only
          exact hcaller
        | ok data =>
          dsimp only
          rw [predictAfterPrep_caller]
          exact hcaller

/-- Witness for C9's amended statement: an allowlist file with one line grows
the caller's list by that line; without `val_list_path` the caller's list is
untouched. -/
theorem c9_val_list_extend_witness :
    (predict fsWithLines coOk {}
      { input_path := some "a.wav", val_list := some ["x"],
        val_list_path := some "list.txt" }).callerValList = some ["x", "a"] ∧
    (predict fsAllEmpty coOk {} { input_path := some "a.wav" }).callerValList = none :=
  ⟨(c9_val_list_extend fsWithLines coOk {}
      { input_path := some "a.wav", val_list := some ["x"],
        val_list_path := some "list.txt" }).1 ["x"] "list.txt" rfl rfl rfl (by decide)
      (by decide),
   (c9_val_list_extend fsAllEmpty coOk {} { input_path := some "a.wav" }).2 rfl⟩

end UTMOSv2

namespace UTMOSv2

/-- Helper: with exactly one selector and `input_path` supplied, the other
three selectors are absent. -/
theorem modeCount_path_unique (a : PredictArgs) (hm : modeCount a = 1)
    (hp : a.input_path.isSome = true) :
    a.input_dir = none ∧ a.input_tensor = none ∧ a.input_tensors = none := by
  unfold modeCount at hm
  rcases h1 : a.input_dir with _ | x <;> rcases h2 : a.input_tensor with _ | y <;>
    rcases h3 : a.input_tensors with _ | z <;> simp_all

/-- Helper: with exactly one selector and `input_dir` supplied, the other
three selectors are absent. -/
theorem modeCount_dir_unique (a : PredictArgs) (hm : modeCount a = 1)
    (hd : a.input_dir.isSome = true) :
    a.input_path = none ∧ a.input_tensor = none ∧ a.input_tensors = none := by
  unfold modeCount at hm
  rcases h1 : a.input_path with _ | x <;> rcases h2 : a.input_tensor with _ | y <;>
    rcases h3 : a.input_tensors with _ | z <;> simp_all

/-- Helper: when the validation-list file step does not raise, `_prepare_data`
reduces to its branching body for some local list and caller contents. -/
theorem prepareData_vlp_ok (fs : FS) (ip idir : Option String) (it : Option Tensor)
    (its : Option (List Tensor)) (vl0 : Option (List String)) (vlp : Option String)
    (tag : String)
    (h : vlp = none ∨ ∃ q, vlp = some q ∧ fs.pathExists q = true) :
    ∃ vl caller, prepareData fs ip idir it its vl0 vlp tag
      = prepareDataCore fs ip idir it its vl caller vlp tag := by
  rcases h with hn | ⟨q, hq, hqe⟩
  · subst hn
    exact ⟨vl0, vl0, rfl⟩
  · subst hq
    rcases vl0 with _ | L
    · refine ⟨some (fs.fileLines q), none, ?_⟩
      unfold prepareData
      simp [hqe]
    · refine ⟨some (L ++ fs.fileLines q), some (L ++ fs.fileLines q), ?_⟩
      unfold prepareData
      simp [hqe]

/-- Helper: a missing validation-list file raises `FileNotFoundError` from the
very first step of `_prepare_data`. -/
theorem prepareData_vlp_missing (fs : FS) (ip idir : Option String) (it : Option Tensor)
    (its : Option (List Tensor)) (vl0 : Option (List String)) (q : String) (tag : String)
    (hqe : fs.pathExists q = false) :
    (prepareData fs ip idir it its vl0 (some q) tag).res
      = .error (.fileNotFoundError ("File not found: " ++ q)) := by
  unfold prepareData
  simp [hqe]

/-- Helper: a missing `input_path` raises `FileNotFoundError` in the branching
body. -/
theorem prepareDataCore_path_missing (fs : FS) (p : String) (idir : Option String)
    (it : Option Tensor) (its : Option (List Tensor)) (vl caller : Option (List String))
    (vlp : Option String) (tag : String) (hpe : fs.pathExists p = false) :
    (prepareDataCore fs (some p) idir it its vl caller vlp tag).res
      = .error (.fileNotFoundError ("File not found: " ++ p)) := by
  unfold prepareDataCore
  simp [hpe]

/-- Helper: a missing `input_dir` raises `FileNotFoundError` in the branching
body. -/
theorem prepareDataCore_dir_missing (fs : FS) (d : String) (it : Option Tensor)
    (its : Option (List Tensor)) (vl caller : Option (List String))
    (vlp : Option String) (tag : String) (hde : fs.pathExists d = false) :
    (prepareDataCore fs none (some d) it its vl caller vlp tag).res
      = .error (.fileNotFoundError ("Directory not found: " ++ d)) := by
  unfold prepareDataCore
  simp [hde]

/-- Helper: an existing directory with no `.wav` files raises `ValueError`
before the allowlist filter runs (the error does not depend on the allowlist
arguments). -/
theorem prepareDataCore_dir_empty (fs : FS) (d : String) (it : Option Tensor)
    (its : Option (List Tensor)) (vl caller : Option (List String))
    (vlp : Option String) (tag : String) (hde : fs.pathExists d = true)
    (hw : fs.dirWavs d = []) :
    (prepareDataCore fs none (some d) it its vl caller vlp tag).res
      = .error (.valueError ("No wav files found in " ++ d)) := by
  unfold prepareDataCore
  simp [hde, hw, dirRecords, sortStrings]

/-- Helper: a `_prepare_data` exception propagates out of `predict` before any
dataset construction. -/
theorem predict_prep_error (fs : FS) (co : Collab) (cfg0 : Config) (a : PredictArgs)
    (e : PyError) (hm : modeCount a = 1)
    (hsr : ¬(tensorMode a = true ∧ a.sample_rate = none))
    (hres : (prepareData fs a.input_path a.input_dir a.input_tensor a.input_tensors
      a.val_list a.val_list_path a.predict_dataset).res = .error e) :
    (predict fs co cfg0 a).result = .error e ∧
    (predict fs co cfg0 a).cfgAtConstruction = none := by
  rw [predict_unfold_checked fs co cfg0 a hm hsr, hres]
  exact ⟨rfl, rfl⟩

/-- Claim C8: missing file, directory, or allowlist-file paths raise
`FileNotFoundError`, and an existing directory with no `.wav` files raises
`ValueError` (checked before allowlist filtering: the conclusion holds for
every allowlist argument) — in all cases before dataset construction or
inference work. -/
theorem c8_not_found_and_empty_dir (fs : FS) (co : Collab) (cfg0 : Config)
    (a : PredictArgs) (hm : modeCount a = 1) :
    (∀ p, a.input_path = some p → fs.pathExists p = false →
      (a.val_list_path = none ∨ ∃ q, a.val_list_path = some q ∧ fs.pathExists q = true) →
      (predict fs co cfg0 a).result = .error (.fileNotFoundError ("File not found: " ++ p)) ∧
      (predict fs co cfg0 a).cfgAtConstruction = none) ∧
    (∀ d, a.input_dir = some d → fs.pathExists d = false →
      (a.val_list_path = none ∨ ∃ q, a.val_list_path = some q ∧ fs.pathExists q = true) →
      (predict fs co cfg0 a).result = .error (.fileNotFoundError ("Directory not found: " ++ d)) ∧
      (predict fs co cfg0 a).cfgAtConstruction = none) ∧
    (∀ q, a.val_list_path = some q → fs.pathExists q = false →
      ¬(tensorMode a = true ∧ a.sample_rate = none) →
      (predict fs co cfg0 a).result = .error (.fileNotFoundError ("File not found: " ++ q)) ∧
      (predict fs co cfg0 a).cfgAtConstruction = none) ∧
    (∀ d, a.input_dir = some d → fs.pathExists d = true → fs.dirWavs d = [] →
      (a.val_list_path = none ∨ ∃ q, a.val_list_path = some q ∧ fs.pathExists q = true) →
      (predict fs co cfg0 a).result = .error (.valueError ("No wav files found in " ++ d)) ∧
      (predict fs co cfg0 a).cfgAtConstruction = none) := by
  refine ⟨?_, ?_, ?_, ?_⟩
  · intro p hp hpe hvlp
    obtain ⟨hd, ht, hts⟩ := modeCount_path_unique a hm (by rw [hp]; rfl)
    have hsr : ¬(tensorMode a = true ∧ a.sample_rate = none) := by
      unfold tensorMode
      rw [ht, hts]
      simp
    obtain ⟨vl, caller, heq⟩ := prepareData_vlp_ok fs a.input_path a.input_dir
      a.input_tensor a.input_tensors a.val_list a.val_list_path a.predict_dataset hvlp
    refine predict_prep_error fs co cfg0 a _ hm hsr ?_
    rw [heq, hp]
    exact prepareDataCore_path_missing fs p _ _ _ _ _ _ _ hpe
  · intro d hd hde hvlp
    obtain ⟨hp, ht, hts⟩ := modeCount_dir_unique a hm (by rw [hd]; rfl)
    have hsr : ¬(tensorMode a = true ∧ a.sample_rate = none) := by
      unfold tensorMode
      rw [ht, hts]
      simp
    obtain ⟨vl, caller, heq⟩ := prepareData_vlp_ok fs a.input_path a.input_dir
      a.input_tensor a.input_tensors a.val_list a.val_list_path a.predict_dataset hvlp
    refine predict_prep_error fs co cfg0 a _ hm hsr ?_
    rw [heq, hp, hd]
    exact prepareDataCore_dir_missing fs d _ _ _ _ _ _ hde
  · intro q hq hqe hsr
    refine predict_prep_error fs co cfg0 a _ hm hsr ?_
    rw [hq]
    exact prepareData_vlp_missing fs _ _ _ _ _ q _ hqe
  · intro d hd hde hw hvlp
    obtain ⟨hp, ht, hts⟩ := modeCount_dir_unique a hm (by rw [hd]; rfl)
    have hsr : ¬(tensorMode a = true ∧ a.sample_rate = none) := by
      unfold tensorMode
      rw [ht, hts]
      simp
    obtain ⟨vl, caller, heq⟩ := prepareData_vlp_ok fs a.input_path a.input_dir
      a.input_tensor a.input_tensors a.val_list a.val_list_path a.predict_dataset hvlp
    refine predict_prep_error fs co cfg0 a _ hm hsr ?_
    rw [heq, hp, hd]
    exact prepareDataCore_dir_empty fs d _ _ _ _ _ _ hde hw

/-- Witness for C8, instantiating all four failure modes at concrete inputs:
missing file, missing directory, missing allowlist file, and an existing empty
directory with an allowlist supplied. -/
theorem c8_not_found_and_empty_dir_witness :
    (predict fsAllMissing coOk {} { input_path := some "x.wav" }).result
      = .error (.fileNotFoundError "File not found: x.wav") ∧
    (predict fsAllMissing coOk {} { input_dir := some "d" }).result
      = .error (.fileNotFoundError "Directory not found: d") ∧
    (predict fsAllMissing coOk {}
      { input_path := some "x.wav", val_list_path := some "v.txt" }).result
      = .error (.fileNotFoundError "File not found: v.txt") ∧
    (predict fsAllEmpty coOk {} { input_dir := some "d", val_list := some ["a"] }).result
      = .error (.valueError "No wav files found in d") :=
  ⟨((c8_not_found_and_empty_dir fsAllMissing coOk {} { input_path := some "x.wav" }
      (by decide)).1 "x.wav" rfl rfl (Or.inl rfl)).1,
   ((c8_not_found_and_empty_dir fsAllMissing coOk {} { input_dir := some "d" }
      (by decide)).2.1 "d" rfl rfl (Or.inl rfl)).1,
   ((c8_not_found_and_empty_dir fsAllMissing coOk {}
      { input_path := some "x.wav", val_list_path := some "v.txt" }
      (by decide)).2.2.1 "v.txt" rfl rfl (by decide)).1,
   ((c8_not_found_and_empty_dir fsAllEmpty coOk {}
      { input_dir := some "d", val_list := some ["a"] }
      (by decide)).2.2.2 "d" rfl rfl rfl (Or.inl rfl)).1⟩

end UTMOSv2

namespace UTMOSv2

/-- Claim C6, counterexample: filtering does not use suffix stripping.  The
directory file `a.wavb.wav` is kept under allowlist `[ab]`, because
`replace(".wav", "")` removes every occurrence (`a.wavb.wav` becomes `ab`),
while the claim's suffix-only semantics (`a.wavb`) would exclude it. -/
theorem c6_counterexample_replace_not_suffix :
    (prepareData fsDirOdd none (some "d") none none (some ["ab"]) none "sarulab").res
      = .ok [{ file_path := some "d/a.wavb.wav", dataset := "sarulab" }] ∧
    stripWavSuffix (lastComp "d/a.wavb.wav") = "a.wavb" ∧
    (["ab"].map stripWavSuffix).contains "a.wavb" = false :=
  ⟨rfl, rfl, rfl⟩

/-- Helper: when the allowlist-file step does not raise, `_prepare_data`
reduces to its branching body with the local list being the effective
allowlist (inline list, file lines, or their union). -/
theorem prepareData_eq_core_eff (fs : FS) (ip idir : Option String) (it : Option Tensor)
    (its : Option (List Tensor)) (vl0 : Option (List String)) (vlp : Option String)
    (tag : String)
    (h : vlp = none ∨ ∃ q, vlp = some q ∧ fs.pathExists q = true) :
    ∃ caller, prepareData fs ip idir it its vl0 vlp tag
      = prepareDataCore fs ip idir it its (effectiveValList fs vl0 vlp) caller vlp tag := by
  rcases h with hn | ⟨q, hq, hqe⟩
  · subst hn
    exact ⟨vl0, rfl⟩
  · subst hq
    rcases vl0 with _ | L
    · refine ⟨none, ?_⟩
      unfold prepareData
      simp [hqe, effectiveValList]
    · refine ⟨some (L ++ fs.fileLines q), ?_⟩
      unfold prepareData
      simp [hqe, effectiveValList]

/-- Helper: directory-mode branching body with an allowlist returns exactly
the records passing the replace-all membership test, in sorted order. -/
theorem prepareDataCore_dir_filter (fs : FS) (d tag : String) (vl : List String)
    (it : Option Tensor) (its : Option (List Tensor)) (caller : Option (List String))
    (vlp : Option String) (hde : fs.pathExists d = true)
    (hw : (dirRecords fs d tag).isEmpty = false)
    (hf : (applyValFilter vl (dirRecords fs d tag)).isEmpty = false) :
    (prepareDataCore fs none (some d) it its (some vl) caller vlp tag).res
      = .ok (applyValFilter vl (dirRecords fs d tag)) := by
  unfold prepareDataCore
  simp [hde, hw, hf, applyFilterOpt, finishTail]

/-- Helper: file-mode branching body with an allowlist applies the same
replace-all membership test to the single record. -/
theorem prepareDataCore_file_filter (fs : FS) (p tag : String) (vl : List String)
    (it : Option Tensor) (its : Option (List Tensor)) (caller : Option (List String))
    (vlp : Option String) (hpe : fs.pathExists p = true)
    (hf : (applyValFilter vl [{ file_path := some p, dataset := tag }]).isEmpty = false) :
    (prepareDataCore fs (some p) none it its (some vl) caller vlp tag).res
      = .ok (applyValFilter vl [{ file_path := some p, dataset := tag }]) := by
  unfold prepareDataCore
  simp [hpe, hf, applyFilterOpt, finishTail]

/-- Claim C6 (amended): in file and directory modes with an allowlist
supplied — inline, file-based, or their union — entries and file names are
compared after removing every `".wav"` occurrence (`str.replace` semantics,
not suffix-only), and exactly the records passing that membership test are
kept, in the (sorted, for directory mode) normalization order. -/
theorem c6_allowlist_filter (fs : FS) (tag : String) (vl0 : Option (List String))
    (vlp : Option String) (vl : List String)
    (heff : effectiveValList fs vl0 vlp = some vl)
    (hvlp : vlp = none ∨ ∃ q, vlp = some q ∧ fs.pathExists q = true) :
    (∀ d, fs.pathExists d = true → (dirRecords fs d tag).isEmpty = false →
      (applyValFilter vl (dirRecords fs d tag)).isEmpty = false →
      (prepareData fs none (some d) none none vl0 vlp tag).res
        = .ok (applyValFilter vl (dirRecords fs d tag))) ∧
    (∀ p, fs.pathExists p = true →
      (applyValFilter vl [{ file_path := some p, dataset := tag }]).isEmpty = false →
      (prepareData fs (some p) none none none vl0 vlp tag).res
        = .ok (applyValFilter vl [{ file_path := some p, dataset := tag }])) := by
  constructor
  · intro d hde hw hf
    obtain ⟨caller, heq⟩ := prepareData_eq_core_eff fs none (some d) none none vl0 vlp
      tag hvlp
    rw [heq, heff]
    exact prepareDataCore_dir_filter fs d tag vl none none caller vlp hde hw hf
  · intro p hpe hf
    obtain ⟨caller, heq⟩ := prepareData_eq_core_eff fs (some p) none none none vl0 vlp
      tag hvlp
    rw [heq, heff]
    exact prepareDataCore_file_filter fs p tag vl none none caller vlp hpe hf

/-- Witness for C6's amended statement, covering all three allowlist sources
and both file-based modes: directory files `[a.wav, b.wav, c.wav]` keep
exactly `a.wav` and `c.wav` in sorted order under the inline allowlist
`[a, c]` and equally under an allowlist file holding lines `a` and `c`; a
single-file call with inline allowlist `[a]` keeps its record. -/
theorem c6_allowlist_filter_witness :
    (prepareData fsDirABC none (some "d") none none (some ["a", "c"]) none "sarulab").res
      = .ok [{ file_path := some "d/a.wav", dataset := "sarulab" },
             { file_path := some "d/c.wav", dataset := "sarulab" }] ∧
    (prepareData fsDirABCLines none (some "d") none none none (some "lst.txt")
        "sarulab").res
      = .ok [{ file_path := some "d/a.wav", dataset := "sarulab" },
             { file_path := some "d/c.wav", dataset := "sarulab" }] ∧
    (prepareData fsAllEmpty (some "a.wav") none none none (some ["a"]) none
        "sarulab").res
      = .ok [{ file_path := some "a.wav", dataset := "sarulab" }] := by
  refine ⟨?_, ?_, ?_⟩
  · have h := (c6_allowlist_filter fsDirABC "sarulab" (some ["a", "c"]) none ["a", "c"]
        rfl (Or.inl rfl)).1 "d" rfl rfl rfl
    rw [h]
    rfl
  · have h := (c6_allowlist_filter fsDirABCLines "sarulab" none (some "lst.txt")
        ["a", "c"] rfl (Or.inr ⟨"lst.txt", rfl, rfl⟩)).1 "d" rfl rfl rfl
    rw [h]
    rfl
  · have h := (c6_allowlist_filter fsAllEmpty "sarulab" (some ["a"]) none ["a"]
        rfl (Or.inl rfl)).2 "a.wav" rfl rfl
    rw [h]
    rfl

/-- Helper: if `predict` returned a value, the selector-arity check passed. -/
theorem predict_ok_modeCount (fs : FS) (co : Collab) (cfg0 : Config) (a : PredictArgs)
    (r : PredictResult) (hok : (predict fs co cfg0 a).result = .ok r) :
    modeCount a = 1 := by
  by_contra hm
  unfold predict at hok
  rw [if_pos hm] at hok
  simp at hok

/-- Helper: if `predict` returned a value, the tensor-mode sample-rate check
passed. -/
theorem predict_ok_sr (fs : FS) (co : Collab) (cfg0 : Config) (a : PredictArgs)
    (r : PredictResult) (hok : (predict fs co cfg0 a).result = .ok r) :
    ¬(tensorMode a = true ∧ a.sample_rate = none) := by
  intro hc
  have hm := predict_ok_modeCount fs co cfg0 a r hok
  unfold predict at hok
  rw [if_neg (not_ne_iff.mpr hm), if_pos hc] at hok
  simp at hok

/-- Helper: a successful `_prepare_data` call reduces to its branching body
for some local list and caller contents. -/
theorem prepareData_ok_core (fs : FS) (ip idir : Option String) (it : Option Tensor)
    (its : Option (List Tensor)) (vl0 : Option (List String)) (vlp : Option String)
    (tag : String) (out : List DatasetSchema)
    (h : (prepareData fs ip idir it its vl0 vlp tag).res = .ok out) :
    ∃ vl caller, prepareData fs ip idir it its vl0 vlp tag
      = prepareDataCore fs ip idir it its vl caller vlp tag := by
  rcases hv : vlp with _ | q
  · subst hv
    exact ⟨vl0, vl0, rfl⟩
  · subst hv
    by_cases hqe : fs.pathExists q = true
    · exact prepareData_vlp_ok fs ip idir it its vl0 (some q) tag (Or.inr ⟨q, rfl, hqe⟩)
    · have hf : fs.pathExists q = false := by
        cases hb : fs.pathExists q
        · rfl
        · exact absurd hb hqe
      rw [prepareData_vlp_missing fs ip idir it its vl0 q tag hf] at h
      simp at h

/-- Helper: a successful directory-mode branching body returns exactly the
(optionally filtered) sorted directory records. -/
theorem prepareDataCore_dir_ok (fs : FS) (d : String) (it : Option Tensor)
    (its : Option (List Tensor)) (vl caller : Option (List String))
    (vlp : Option String) (tag : String) (data : List DatasetSchema)
    (h : (prepareDataCore fs none (some d) it its vl caller vlp tag).res = .ok data) :
    data = applyFilterOpt vl (dirRecords fs d tag) := by
  unfold prepareDataCore at h
  by_cases hde : fs.pathExists d = true
  · simp only [hde] at h
    by_cases hw : (dirRecords fs d tag).isEmpty
    · simp [hw] at h
    · simp only [finishTail, hw] at h
      by_cases hf : (applyFilterOpt vl (dirRecords fs d tag)).isEmpty
      · simp [hf] at h
      · simp [hf] at h
        exact h.symm
  · simp [hde] at h

/-- Helper: a successful tensor-list branching body returns one tensor record
per input tensor, in input order. -/
theorem prepareDataCore_tensors_ok (fs : FS) (ts : List Tensor)
    (vl caller : Option (List String)) (vlp : Option String) (tag : String)
    (data : List DatasetSchema)
    (h : (prepareDataCore fs none none none (some ts) vl caller vlp tag).res = .ok data) :
    data = ts.map (fun t => { dataset := tag, audio_tensor := some t }) := by
  unfold prepareDataCore at h
  by_cases he : (ts.map (fun t => ({ dataset := tag, audio_tensor := some t } : DatasetSchema))).isEmpty
  · simp [finishTail, he] at h
  · simp [finishTail, he] at h
    exact h.symm

/-- Helper: a successful `predict` run with known preparation and inference
results pins down the shaping step. -/
theorem predict_ok_shape (fs : FS) (co : Collab) (cfg0 : Config) (a : PredictArgs)
    (data : List DatasetSchema) (pred : List ℚ) (r : PredictResult)
    (hprep : (prepareData fs a.input_path a.input_dir a.input_tensor a.input_tensors
      a.val_list a.val_list_path a.predict_dataset).res = .ok data)
    (himpl : predictImpl co.forward (numBatches data.length a.batch_size)
      a.num_repetitions = .ok pred)
    (hok : (predict fs co cfg0 a).result = .ok r) :
    shapeResult a data pred = .ok r := by
  have hm := predict_ok_modeCount fs co cfg0 a r hok
  have hsr := predict_ok_sr fs co cfg0 a r hok
  rw [predict_unfold_checked fs co cfg0 a hm hsr, hprep] at hok
  unfold predictAfterPrep at hok
  cases hd : co.getDatasetError with
  | some e =>
    rw [hd] at hok
    simp at hok
  | none =>
    rw [hd] at hok
    dsimp only at hok
    rw [himpl] at hok
    dsimp only at hok
    cases hs : shapeResult a data pred with
    | error e =>
      rw [hs] at hok
      simp at hok
    | ok r2 =>
      rw [hs] at hok
      simp only at hok
      exact hok

/-- Helper: directory-mode record shaping aligns paths and scores by index. -/
theorem zip_map_pathString (data : List DatasetSchema) (pred : List ℚ) :
    (data.zip pred).map (fun dp => (pathString dp.1, dp.2))
      = List.zip (data.map pathString) pred := by
  induction data generalizing pred with
  | nil => simp
  | cons d ds ih =>
    cases pred with
    | nil => simp
    | cons p ps => simp [ih]

/-- Claim C5: on success the return shape follows the input mode: single file
path and single tensor return the one score; a tensor list of length `k`
returns `k` scores in input order; directory mode returns
`{file_path, predicted_mos}` records over the (optionally filtered) sorted
directory listing, with scores aligned by index. -/
theorem c5_result_shapes (fs : FS) (co : Collab) (cfg0 : Config) (a : PredictArgs)
    (data : List DatasetSchema) (pred : List ℚ) (r : PredictResult)
    (hprep : (prepareData fs a.input_path a.input_dir a.input_tensor a.input_tensors
      a.val_list a.val_list_path a.predict_dataset).res = .ok data)
    (himpl : predictImpl co.forward (numBatches data.length a.batch_size)
      a.num_repetitions = .ok pred)
    (hlen : pred.length = data.length)
    (hok : (predict fs co cfg0 a).result = .ok r) :
    (∀ p, a.input_path = some p → r = .score (pred.getD 0 0)) ∧
    (∀ t, a.input_tensor = some t → a.input_path = none → r = .score (pred.getD 0 0)) ∧
    (∀ ts, a.input_tensors = some ts → a.input_path = none → a.input_tensor = none →
      a.input_dir = none → r = .scores pred ∧ pred.length = ts.length) ∧
    (∀ d, a.input_dir = some d → a.input_path = none → a.input_tensor = none →
      a.input_tensors = none →
      r = .records (List.zip (data.map pathString) pred) ∧
      ∃ vl, data = applyFilterOpt vl (dirRecords fs d a.predict_dataset)) := by
  have hshape := predict_ok_shape fs co cfg0 a data pred r hprep himpl hok
  refine ⟨?_, ?_, ?_, ?_⟩
  · intro p hp
    unfold shapeResult at hshape
    rw [hp] at hshape
    cases hpred : pred with
    | nil =>
      rw [hpred] at hshape
      simp at hshape
    | cons v t =>
      rw [hpred] at hshape
      simp at hshape
      simp [hshape]
  · intro t ht hp
    unfold shapeResult at hshape
    rw [hp, ht] at hshape
    cases hpred : pred with
    | nil =>
      rw [hpred] at hshape
      simp at hshape
    | cons v tl =>
      rw [hpred] at hshape
      simp at hshape
      simp [hshape]
  · intro ts hts hp ht hd
    unfold shapeResult at hshape
    rw [hp, ht, hts] at hshape
    simp at hshape
    obtain ⟨vl, caller, heq⟩ := prepareData_ok_core fs a.input_path a.input_dir
      a.input_tensor a.input_tensors a.val_list a.val_list_path a.predict_dataset data hprep
    rw [heq, hp, hd, ht, hts] at hprep
    have hdata := prepareDataCore_tensors_ok fs ts vl caller a.val_list_path
      a.predict_dataset data hprep
    refine ⟨hshape.symm, ?_⟩
    rw [hlen, hdata]
    simp
  · intro d hd hp ht hts
    unfold shapeResult at hshape
    rw [hp, ht, hts] at hshape
    simp at hshape
    obtain ⟨vl, caller, heq⟩ := prepareData_ok_core fs a.input_path a.input_dir
      a.input_tensor a.input_tensors a.val_list a.val_list_path a.predict_dataset data hprep
    rw [heq, hp, hd, ht, hts] at hprep
    have hdata := prepareDataCore_dir_ok fs d a.input_tensor a.input_tensors vl caller
      a.val_list_path a.predict_dataset data hprep
    refine ⟨?_, ⟨vl, hdata⟩⟩
    rw [← zip_map_pathString]
    exact hshape.symm

/-- Witness for C5 in directory mode: three files, three scores, records in
sorted order with scores aligned by index. -/
theorem c5_result_shapes_witness :
    (predict fsDirABC coTriple {} { input_dir := some "d" }).result
      = .ok (.records (List.zip ((dirRecords fsDirABC "d" "sarulab").map pathString)
          [3 / ((1 : Nat) : ℚ), 5 / ((1 : Nat) : ℚ), 7 / ((1 : Nat) : ℚ)])) := by
  have h := (c5_result_shapes fsDirABC coTriple {} { input_dir := some "d" }
      (dirRecords fsDirABC "d" "sarulab")
      [3 / ((1 : Nat) : ℚ), 5 / ((1 : Nat) : ℚ), 7 / ((1 : Nat) : ℚ)]
      (.records (((dirRecords fsDirABC "d" "sarulab").zip
          [3 / ((1 : Nat) : ℚ), 5 / ((1 : Nat) : ℚ), 7 / ((1 : Nat) : ℚ)]).map
        (fun dp : DatasetSchema × ℚ => (pathString dp.1, dp.2))))
      rfl rfl rfl rfl).2.2.2 "d" rfl rfl rfl rfl
  have hok : (predict fsDirABC coTriple {} { input_dir := some "d" }).result
      = .ok (.records (((dirRecords fsDirABC "d" "sarulab").zip
          [3 / ((1 : Nat) : ℚ), 5 / ((1 : Nat) : ℚ), 7 / ((1 : Nat) : ℚ)]).map
        (fun dp : DatasetSchema × ℚ => (pathString dp.1, dp.2)))) := rfl
  rw [hok, h.1]

end UTMOSv2

namespace UTMOSv2

/-- Helper: under an exception-free forward pass, the batch loop collects
exactly the per-batch outputs, in order. -/
theorem collectFrom_pure (g : Nat → List ℚ) (k : Nat) :
    ∀ b, collectFrom (fun x => .ok (g x)) b k = .ok (collectPure g b k) := by
  induction k with
  | zero => intro b; rfl
  | succ k ih => intro b; simp [collectFrom, collectPure, ih]

/-- Helper: `getD` with default `0` commutes with elementwise division. -/
theorem getD_map_div (c : ℚ) (l : List ℚ) : ∀ j,
    (l.map (fun x => x / c)).getD j 0 = l.getD j 0 / c := by
  induction l with
  | nil => intro j; simp
  | cons x t ih =>
    intro j
    cases j with
    | zero => rfl
    | succ j => simpa using ih j

/-- Helper: `getD` with default `0` distributes over elementwise addition of
equal-length lists. -/
theorem getD_zipWith_add : ∀ (a b : List ℚ), a.length = b.length → ∀ j,
    (List.zipWith (fun x y => x + y) a b).getD j 0 = a.getD j 0 + b.getD j 0 := by
  intro a
  induction a with
  | nil =>
    intro b hb j
    cases b with
    | nil => simp
    | cons y s => simp at hb
  | cons x t ih =>
    intro b hb j
    cases b with
    | nil => simp at hb
    | cons y s =>
      cases j with
      | zero => rfl
      | succ j =>
        have hb2 : t.length = s.length := by simpa using hb
        simpa using ih s hb2 j

/-- Helper: invariant of the repetition loop under an exception-free forward
pass, starting from an array accumulator: the loop keeps the length and adds
the per-repetition arrays divided by `n`, elementwise. -/
theorem predictFold_pure (f : Nat → Nat → List ℚ) (nb n : Nat) (hnb : 1 ≤ nb) :
    ∀ (l : List Nat) (acc : List ℚ) (m : Nat), acc.length = m →
      (∀ i ∈ l, (repArray f nb i).length = m) →
      ∃ res, predictFold (fun i b => .ok (f i b)) nb n l (.arr acc) = .ok (.arr res) ∧
        res.length = m ∧
        ∀ j, res.getD j 0 = acc.getD j 0
          + ((l.map (fun i => (repArray f nb i).getD j 0)).sum) / (n : ℚ) := by
  intro l
  induction l with
  | nil =>
    intro acc m ha hl
    refine ⟨acc, rfl, ha, ?_⟩
    intro j
    simp
  | cons i rest ih =>
    intro acc m ha hl
    have hmem : (repArray f nb i).length = m := hl i (by simp)
    have hv : ((repArray f nb i).map (fun x => x / (n : ℚ))).length = m := by
      rw [List.length_map]
      exact hmem
    obtain ⟨k, hk⟩ : ∃ k, nb = k + 1 := ⟨nb - 1, by omega⟩
    have hne : (collectPure (f i) 0 nb).isEmpty = false := by rw [hk]; rfl
    have hstep : predictFold (fun i b => .ok (f i b)) nb n (i :: rest) (NpAccum.arr acc)
        = predictFold (fun i b => .ok (f i b)) nb n rest
            (NpAccum.arr (List.zipWith (fun x y => x + y) acc
              ((repArray f nb i).map (fun x => x / (n : ℚ))))) := by
      simp only [predictFold]
      rw [collectFrom_pure]
      dsimp only
      rw [if_neg (by simp [hne])]
      have hadd : npAdd (NpAccum.arr acc)
          ((collectPure (f i) 0 nb).flatten.map (fun x => x / (n : ℚ)))
          = .ok (NpAccum.arr (List.zipWith (fun x y => x + y) acc
              ((repArray f nb i).map (fun x => x / (n : ℚ))))) := by
        unfold npAdd
        dsimp only
        rw [if_pos]
        · rfl
        · rw [ha]
          exact hv.symm
      rw [hadd]
    rw [hstep]
    obtain ⟨res, heq, hlen2, hjj⟩ := ih
      (List.zipWith (fun x y => x + y) acc ((repArray f nb i).map (fun x => x / (n : ℚ))))
      m (by rw [List.length_zipWith, ha, hv]; simp) (fun x hx => hl x (by simp [hx]))
    refine ⟨res, heq, hlen2, ?_⟩
    intro j
    rw [hjj j]
    rw [getD_zipWith_add acc _ (by rw [ha]; exact hv.symm) j]
    rw [getD_map_div]
    rw [List.map_cons, List.sum_cons, add_div]
    ring

/-- Claim C7: for every repetition count `n ≥ 1`, under an exception-free
forward pass with at least one batch and per-repetition arrays of a common
length `m`, the inference runner returns the elementwise arithmetic mean of
the `n` per-repetition concatenated output arrays. -/
theorem c7_repetition_mean (f : Nat → Nat → List ℚ) (nb n m : Nat)
    (hn : 1 ≤ n) (hnb : 1 ≤ nb)
    (hlen : ∀ i, i < n → (repArray f nb i).length = m) :
    ∃ res, predictImpl (fun i b => .ok (f i b)) nb n = .ok res ∧ res.length = m ∧
      ∀ j, res.getD j 0
        = ((List.range n).map (fun i => (repArray f nb i).getD j 0)).sum / (n : ℚ) := by
  obtain ⟨k, hk⟩ : ∃ k, n = k + 1 := ⟨n - 1, by omega⟩
  subst hk
  obtain ⟨k2, hk2⟩ : ∃ j, nb = j + 1 := ⟨nb - 1, by omega⟩
  have hne : (collectPure (f 0) 0 nb).isEmpty = false := by rw [hk2]; rfl
  have hl0 : (repArray f nb 0).length = m := hlen 0 (by omega)
  have hstep : predictFold (fun i b => .ok (f i b)) nb (k + 1) (List.range (k + 1))
      NpAccum.float0
      = predictFold (fun i b => .ok (f i b)) nb (k + 1) ((List.range k).map Nat.succ)
          (NpAccum.arr ((repArray f nb 0).map (fun x => x / ((k + 1 : Nat) : ℚ)))) := by
    rw [List.range_succ_eq_map]
    simp only [predictFold]
    rw [collectFrom_pure]
    dsimp only
    rw [if_neg (by simp [hne])]
    rfl
  have hfold := predictFold_pure f nb (k + 1) hnb ((List.range k).map Nat.succ)
      ((repArray f nb 0).map (fun x => x / ((k + 1 : Nat) : ℚ))) m
      (by rw [List.length_map]; exact hl0)
      (fun x hx => by
        obtain ⟨y, hy, hxy⟩ := List.mem_map.mp hx
        have hyk := List.mem_range.mp hy
        exact hxy ▸ hlen _ (by omega))
  obtain ⟨res, heq, hlen2, hjj⟩ := hfold
  refine ⟨res, ?_, hlen2, ?_⟩
  · unfold predictImpl
    rw [hstep, heq]
  · intro j
    rw [hjj j, getD_map_div]
    rw [List.range_succ_eq_map, List.map_cons, List.sum_cons, add_div]

/-- Witness for C7: two repetitions that score an item `3` then `5` average to
`(3 + 5) / 2 = 4`. -/
theorem c7_repetition_mean_witness :
    predictImpl (fun i b => .ok (witF i b)) 1 2 = .ok [4] ∧ ((3 : ℚ) + 5) / 2 = 4 := by
  obtain ⟨res, he, hl1, hj⟩ := c7_repetition_mean witF 1 2 1 (by omega) (by omega)
    (fun i hi => by interval_cases i <;> rfl)
  obtain ⟨x, hx⟩ := List.length_eq_one.mp hl1
  subst hx
  have h0 := hj 0
  have hsum : ((List.range 2).map (fun i => (repArray witF 1 i).getD 0 0)).sum
      = 3 + (5 + 0) := rfl
  rw [hsum] at h0
  simp only [List.getD_cons_zero] at h0
  have hx4 : x = 4 := by
    rw [h0]
    norm_num
  refine ⟨?_, by norm_num⟩
  rw [he, hx4]

end UTMOSv2
